import Mathlib

/-!
A shallow embedding of `src/GatewayConnectionManager.cpp` from the OpenShock
firmware, together with theorems about its connection-management behaviour.

External collaborators (the websocket transport, the HTTP client, the JSON
library, the `Config` credential store, `CommandHandler`, `CaptivePortal`)
are modelled at their interfaces: HTTP responses and decoded inbound frames
are inputs, outbound effects are returned as data.  Asynchronous transport
events are delivered from within `m_webSocket.loop()` in the C++; following
the single-logical-thread model of the firmware they are represented here as
separate serialized trace steps.
-/

set_option maxRecDepth 8000

namespace OpenShock

/-- 2^64, the modulus of the C++ `std::uint64_t` arithmetic used for
millisecond timestamps. -/
def U64LIMIT : Nat := 2 ^ 64

/-- Subtraction of `std::uint64_t` values (wrap-around modulo 2^64), for
operands already reduced below 2^64. -/
def u64sub (a b : Nat) : Nat := (a + (U64LIMIT - b % U64LIMIT)) % U64LIMIT

/-- One entry of a ControlCommand batch: the fields extracted from each
element of the `Data` array (`Id`, `Type`, `Intensity`, `Duration`, `Model`). -/
structure ControlCommandEntry where
  id : Nat
  type : Nat
  intensity : Nat
  duration : Nat
  model : Nat
deriving DecidableEq, Repr

/-- An outbound call made by the message dispatcher to an external
collaborator.  `execute` records the call to
`CommandHandler::HandleCommand` together with the result that collaborator
returned. -/
inductive DispatchCall where
  | execute (entry : ControlCommandEntry) (result : Bool)
  | setAlwaysEnabled (value : Bool)
deriving DecidableEq, Repr

/-- The decoded JSON document of one inbound text frame, as read through
ArduinoJson: the `ResponseType` discriminator (0 when the field is absent,
per ArduinoJson defaulting), the `Data` field viewed as a command list, and
the `Data` field viewed as a boolean. -/
structure InboundDoc where
  responseType : Int
  commandData : List ControlCommandEntry
  boolData : Bool
deriving DecidableEq, Repr

/-- `GatewayClient::_handleControlCommandMessage`: iterate the `Data` list and
forward every entry to `CommandHandler::HandleCommand`; a failed or rejected
command is only logged, iteration continues with the next entry. -/
def handleControlCommandMessage (exec : ControlCommandEntry → Bool) :
    List ControlCommandEntry → List DispatchCall
  | [] => []
  | e :: rest => DispatchCall.execute e (exec e) :: handleControlCommandMessage exec rest

/-- `GatewayClient::_handleCaptivePortalMessage`: forward the boolean `Data`
field to `CaptivePortal::SetAlwaysEnabled`. -/
def handleCaptivePortalMessage (doc : InboundDoc) : List DispatchCall :=
  [DispatchCall.setAlwaysEnabled doc.boolData]

/-- `GatewayClient::_parseMessage`: switch on `ResponseType`; 0 dispatches the
control-command batch, 1 the captive-portal toggle, anything else falls
through the switch with no effect at all. -/
def parseMessage (exec : ControlCommandEntry → Bool) (doc : InboundDoc) : List DispatchCall :=
  if doc.responseType = 0 then handleControlCommandMessage exec doc.commandData
  else if doc.responseType = 1 then handleCaptivePortalMessage doc
  else []

/-- `GatewayClient::State`. -/
inductive GatewayClient.State where
  | Disconnected
  | Disconnecting
  | Connecting
  | Connected
deriving DecidableEq, Repr

/-- The session object `GatewayClient`.  `wsConn` is the transport's
`m_webSocket.isConnected()` flag; `endpoint` records the host passed to
`beginSSL`.  The auth-token and firmware-version constructor arguments only
feed the transport's extra headers and are not retained by the model. -/
structure GatewayClient where
  lastKeepAlive : Nat
  state : GatewayClient.State
  wsConn : Bool
  endpoint : Option String
deriving DecidableEq, Repr

/-- The `GatewayClient` constructor:
`m_lastKeepAlive(0), m_state(State::Disconnected)`. -/
def mkGatewayClient : GatewayClient :=
  { lastKeepAlive := 0
    state := GatewayClient.State.Disconnected
    wsConn := false
    endpoint := none }

/-- `GatewayClient::_sendKeepAlive`: the keep-alive frame
`{"requestType": 0}` goes out only if the transport reports connected;
returns whether the frame was sent. -/
def sendKeepAlive (c : GatewayClient) : Bool := c.wsConn

/-- `GatewayClient::connect`: no-op unless `Disconnected`; otherwise enter
`Connecting` and begin the TLS websocket handshake to the given host. -/
def GatewayClient.connect (c : GatewayClient) (lcgFqdn : String) : GatewayClient :=
  if c.state ≠ GatewayClient.State.Disconnected then c
  else { c with state := GatewayClient.State.Connecting, endpoint := some lcgFqdn }

/-- `GatewayClient::disconnect`: no-op unless `Connected`; otherwise enter
`Disconnecting` and request transport close (completion arrives later as a
DISCONNECTED event). -/
def GatewayClient.disconnect (c : GatewayClient) : GatewayClient :=
  if c.state ≠ GatewayClient.State.Connected then c
  else { c with state := GatewayClient.State.Disconnecting }

/-- Result of `GatewayClient::loop`: the updated client, the returned busy
flag, and whether a keep-alive frame was sent during this call. -/
structure LoopResult where
  client : GatewayClient
  busy : Bool
  hbSent : Bool
deriving DecidableEq, Repr

/-- `GatewayClient::loop` at monotonic time `msNow`: return false when
`Disconnected`; report busy while connecting or disconnecting; while
`Connected`, send a keep-alive and reset `m_lastKeepAlive` once
`msNow - m_lastKeepAlive` (uint64 arithmetic) reaches 30000.  Transport-event
delivery performed by `m_webSocket.loop()` is modelled as separate trace
steps. -/
def GatewayClient.loop (c : GatewayClient) (msNow : Nat) : LoopResult :=
  if c.state = GatewayClient.State.Disconnected then
    { client := c, busy := false, hbSent := false }
  else if c.state ≠ GatewayClient.State.Connected then
    { client := c, busy := true, hbSent := false }
  else
    if 30000 ≤ u64sub msNow c.lastKeepAlive then
      { client := { c with lastKeepAlive := msNow }, busy := true, hbSent := sendKeepAlive c }
    else
      { client := c, busy := true, hbSent := false }

/-- The websocket event types of `WStype_t` handled by
`GatewayClient::_handleEvent`; a TEXT event carries the decoded document of
its payload. -/
inductive WSEv where
  | DISCONNECTED
  | CONNECTED
  | TEXT (doc : InboundDoc)
  | ERROR
  | FRAGMENT_TEXT_START
  | FRAGMENT
  | FRAGMENT_FIN
  | PING
  | PONG
  | BIN
  | FRAGMENT_BIN_START
deriving DecidableEq, Repr

/-- Result of `GatewayClient::_handleEvent`: the updated client, the value
fanned out to the connected-changed handlers (if any), whether a keep-alive
frame was sent, and the dispatcher calls made. -/
structure EventResult where
  client : GatewayClient
  notify : Option Bool
  hbSent : Bool
  calls : List DispatchCall
deriving DecidableEq, Repr

/-- `GatewayClient::_handleEvent`.  DISCONNECTED enters `Disconnected` and
notifies handlers with false; CONNECTED enters `Connected`, notifies with
true and immediately sends a keep-alive (without touching
`m_lastKeepAlive`); TEXT parses and dispatches the frame; every other event
type only logs. -/
def handleEvent (exec : ControlCommandEntry → Bool) (c : GatewayClient) : WSEv → EventResult
  | WSEv.DISCONNECTED =>
    { client := { c with state := GatewayClient.State.Disconnected, wsConn := false }
      notify := some false
      hbSent := false
      calls := [] }
  | WSEv.CONNECTED =>
    { client := { c with state := GatewayClient.State.Connected, wsConn := true }
      notify := some true
      hbSent := sendKeepAlive { c with state := GatewayClient.State.Connected, wsConn := true }
      calls := [] }
  | WSEv.TEXT doc =>
    { client := c, notify := none, hbSent := false, calls := parseMessage exec doc }
  | _ => { client := c, notify := none, hbSent := false, calls := [] }

/-- One serialized action applied to a `GatewayClient`: a transport event
delivery, a `loop()` tick, or a `connect`/`disconnect` call. -/
inductive GWAct where
  | ev (e : WSEv)
  | tick
  | connectCall (lcgFqdn : String)
  | disconnectCall
deriving DecidableEq, Repr

/-- Apply one action at monotonic time `t`; the second component tags a sent
keep-alive with its origin (`some true` when sent by the periodic tick,
`some false` when sent by the CONNECTED event handler). -/
def gwStep (exec : ControlCommandEntry → Bool) (c : GatewayClient) (t : Nat) :
    GWAct → GatewayClient × Option Bool
  | GWAct.ev e =>
    let r := handleEvent exec c e
    (r.client, if r.hbSent then some false else none)
  | GWAct.tick =>
    let r := GatewayClient.loop c t
    (r.client, if r.hbSent then some true else none)
  | GWAct.connectCall f => (c.connect f, none)
  | GWAct.disconnectCall => (c.disconnect, none)

/-- Run a timed action trace, collecting each sent keep-alive as a
(time, sent-by-tick) pair. -/
def gwRun (exec : ControlCommandEntry → Bool) :
    GatewayClient → List (Nat × GWAct) → GatewayClient × List (Nat × Bool)
  | c, [] => (c, [])
  | c, (t, a) :: tr =>
    ((gwRun exec (gwStep exec c t a).1 tr).1,
      (match (gwStep exec c t a).2 with
        | none => []
        | some tag => [(t, tag)]) ++ (gwRun exec (gwStep exec c t a).1 tr).2)

/-- The times of all sent keep-alives. -/
def hbTimes (l : List (Nat × Bool)) : List Nat := l.map Prod.fst

/-- The times of the keep-alives sent by the periodic tick in
`GatewayClient::loop`. -/
def tickHBtimes (l : List (Nat × Bool)) : List Nat := (l.filter Prod.snd).map Prod.fst

/-- `FLAG_NONE`. -/
def FLAG_NONE : Nat := 0

/-- `FLAG_HAS_IP = 1 << 0`. -/
def FLAG_HAS_IP : Nat := 1

/-- `FLAG_AUTHENTICATED = 1 << 1`. -/
def FLAG_AUTHENTICATED : Nat := 2

/-- The process-wide state of the translation unit: `s_flags` (a uint8
bitmask), `s_wsClient`, `_lastConnectionAttempt`, and the externally stored
backend auth token owned by the `Config` collaborator. -/
structure SysState where
  flags : Nat
  wsClient : Option GatewayClient
  lastConnectionAttempt : Nat
  backendAuthToken : Option String
deriving DecidableEq, Repr

/-- External `Config::HasBackendAuthToken`. -/
def HasBackendAuthToken (s : SysState) : Bool := s.backendAuthToken.isSome

/-- External `Config::SetBackendAuthToken`. -/
def SetBackendAuthToken (s : SysState) (tok : String) : SysState :=
  { s with backendAuthToken := some tok }

/-- External `Config::ClearBackendAuthToken`. -/
def ClearBackendAuthToken (s : SysState) : SysState :=
  { s with backendAuthToken := none }

/-- `GatewayConnectionManager::IsConnected`. -/
def IsConnected (s : SysState) : Bool :=
  match s.wsClient with
  | none => false
  | some c => decide (c.state = GatewayClient.State.Connected)

/-- `GatewayConnectionManager::IsPaired`: `(s_flags & FLAG_AUTHENTICATED) != 0`. -/
def IsPaired (s : SysState) : Bool := decide (s.flags &&& FLAG_AUTHENTICATED ≠ 0)

/-- `_evGotIPHandler`: `s_flags |= FLAG_HAS_IP`. -/
def evGotIPHandler (s : SysState) : SysState :=
  { s with flags := s.flags ||| FLAG_HAS_IP }

/-- `_evWiFiDisconnectedHandler`: `s_flags = FLAG_NONE; s_wsClient = nullptr`. -/
def evWiFiDisconnectedHandler (s : SysState) : SysState :=
  { s with flags := FLAG_NONE, wsClient := none }

/-- The HTTP exchange observed by `GatewayConnectionManager::Pair`: the
response code of the GET and the `data` string extracted by
`GetAuthTokenFromJsonResponse`. -/
structure PairResponse where
  code : Int
  body : String
deriving DecidableEq, Repr

/-- `GatewayConnectionManager::Pair`: fail fast without IP; destroy any
existing client; GET `/1/device/pair/{code}`; any non-200 response or empty
extracted token fails; otherwise persist the token, set
`FLAG_AUTHENTICATED`, and return true. -/
def Pair (s : SysState) (resp : PairResponse) : SysState × Bool :=
  if s.flags &&& FLAG_HAS_IP = 0 then (s, false)
  else
    let s1 : SysState := { s with wsClient := none }
    if resp.code ≠ 200 then (s1, false)
    else
      let authToken := resp.body
      if authToken = "" then (s1, false)
      else
        let s2 := SetBackendAuthToken s1 authToken
        ({ s2 with flags := s2.flags ||| FLAG_AUTHENTICATED }, true)

/-- `GatewayConnectionManager::UnPair`:
`s_flags &= FLAG_HAS_IP; s_wsClient = nullptr; Config::ClearBackendAuthToken()`. -/
def UnPair (s : SysState) : SysState :=
  ClearBackendAuthToken { s with flags := s.flags &&& FLAG_HAS_IP, wsClient := none }

/-- `FetchDeviceInfo`: fail fast without IP; GET `/1/device/self` with the
`DeviceToken` header; 401 clears the stored token and fails; any other
non-200 fails with no state change; 200 parses the device info (log only)
and sets `FLAG_AUTHENTICATED`. -/
def FetchDeviceInfo (s : SysState) (code : Int) : SysState × Bool :=
  if s.flags &&& FLAG_HAS_IP = 0 then (s, false)
  else if code = 401 then (ClearBackendAuthToken s, false)
  else if code ≠ 200 then (s, false)
  else ({ s with flags := s.flags ||| FLAG_AUTHENTICATED }, true)

/-- The HTTP exchange observed by `ConnectToLCG`: the response code of the
GET to `/1/device/assignLCG` and the `fqdn` and `country` strings of its
body (none models a missing field / null pointer). -/
structure LCGResponse where
  code : Int
  fqdn : Option String
  country : Option String
deriving DecidableEq, Repr

/-- `ConnectToLCG` at monotonic time `msNow`.  Returns the new state, the
boolean result, and whether the HTTP request to `/1/device/assignLCG` was
actually issued.  The request is gated behind a 20000 ms cooldown since
`_lastConnectionAttempt`, which is updated whenever the gate is passed. -/
def ConnectToLCG (s : SysState) (msNow : Nat) (resp : LCGResponse) : SysState × Bool × Bool :=
  match s.wsClient with
  | none => (s, false, false)
  | some c =>
    if c.state ≠ GatewayClient.State.Disconnected then
      ({ s with wsClient := some c.disconnect }, false, false)
    else if u64sub msNow s.lastConnectionAttempt < 20000 then (s, false, false)
    else
      let s1 : SysState := { s with lastConnectionAttempt := msNow }
      if !HasBackendAuthToken s1 then (s1, false, false)
      else if resp.code ≠ 200 then (s1, false, true)
      else
        match resp.fqdn, resp.country with
        | some f, some _ => ({ s1 with wsClient := some (c.connect f) }, true, true)
        | _, _ => (s1, false, true)

/-- The tail of `GatewayConnectionManager::Update` after the client-creation
block: drive `s_wsClient->loop()`, stop if busy, otherwise attempt
`ConnectToLCG`.  Returns the new state and whether the assignLCG request was
issued. -/
def updateTail (s : SysState) (msNow : Nat) (lcg : LCGResponse) : SysState × Bool :=
  match s.wsClient with
  | none => (s, false)
  | some c =>
    let r := GatewayClient.loop c msNow
    let s1 : SysState := { s with wsClient := some r.client }
    if r.busy then (s1, false)
    else ((ConnectToLCG s1 msNow lcg).1, (ConnectToLCG s1 msNow lcg).2.2)

/-- `GatewayConnectionManager::Update`: when no client exists, require IP and
a stored token, verify the token with `FetchDeviceInfo` (clearing it on any
verification failure), then build a fresh client; in all cases fall through
to driving the client and the LCG connection attempt.  `verifyCode` is the
HTTP response observed by `FetchDeviceInfo` if it runs; `lcg` the response
observed by `ConnectToLCG` if it runs. -/
def Update (s : SysState) (msNow : Nat) (verifyCode : Int) (lcg : LCGResponse) :
    SysState × Bool :=
  match s.wsClient with
  | none =>
    if s.flags &&& FLAG_HAS_IP = 0 ∨ HasBackendAuthToken s = false then (s, false)
    else
      let r := FetchDeviceInfo s verifyCode
      if !r.2 then (ClearBackendAuthToken r.1, false)
      else
        let s1 : SysState := { r.1 with flags := r.1.flags ||| FLAG_AUTHENTICATED }
        updateTail { s1 with wsClient := some mkGatewayClient } msNow lcg
  | some _ => updateTail s msNow lcg

/-- One serialized step of the whole translation unit: an `Update` tick, a
`Pair`/`UnPair` call, a WiFi event, or a websocket event delivered to the
current client. -/
inductive SysAct where
  | update (verifyCode : Int) (lcg : LCGResponse)
  | pairCall (pairCode : Nat) (resp : PairResponse)
  | unpairCall
  | gotIP
  | wifiLost
  | gwEv (e : WSEv)
deriving DecidableEq, Repr

/-- Apply one system action at monotonic time `t`; the boolean records
whether the HTTP request to `/1/device/assignLCG` was issued during the
step. -/
def sysStep (exec : ControlCommandEntry → Bool) (s : SysState) (t : Nat) :
    SysAct → SysState × Bool
  | SysAct.update verifyCode lcg => Update s t verifyCode lcg
  | SysAct.pairCall _ resp => ((Pair s resp).1, false)
  | SysAct.unpairCall => (UnPair s, false)
  | SysAct.gotIP => (evGotIPHandler s, false)
  | SysAct.wifiLost => (evWiFiDisconnectedHandler s, false)
  | SysAct.gwEv e =>
    match s.wsClient with
    | none => (s, false)
    | some c => ({ s with wsClient := some (handleEvent exec c e).client }, false)

/-- Run a timed trace of steps, collecting the times at which the stepped
system emitted (second component true). -/
def gatedRun {σ α : Type} (step : σ → Nat → α → σ × Bool) :
    σ → List (Nat × α) → σ × List Nat
  | s, [] => (s, [])
  | s, (t, a) :: tr =>
    ((gatedRun step (step s t a).1 tr).1,
      (if (step s t a).2 then [t] else []) ++ (gatedRun step (step s t a).1 tr).2)

/-- Run a system trace, collecting the times of the issued assignLCG
requests. -/
def sysRun (exec : ControlCommandEntry → Bool) :
    SysState → List (Nat × SysAct) → SysState × List Nat :=
  gatedRun (sysStep exec)

/-- The view of `gwStep` that emits exactly the keep-alives sent by the
periodic tick. -/
def gwTickStep (exec : ControlCommandEntry → Bool) (c : GatewayClient) (t : Nat)
    (a : GWAct) : GatewayClient × Bool :=
  ((gwStep exec c t a).1,
    match (gwStep exec c t a).2 with
    | some true => true
    | _ => false)

/-- The state at startup: `s_flags = 0`, no client,
`_lastConnectionAttempt = 0`, and whatever token the external store holds. -/
def initialSys (tok : Option String) : SysState :=
  { flags := FLAG_NONE
    wsClient := none
    lastConnectionAttempt := 0
    backendAuthToken := tok }

/-- Consecutive elements of the list are at least `gap` apart. -/
def spacedBy (gap : Nat) : List Nat → Bool
  | [] => true
  | [_] => true
  | a :: b :: rest => (decide (gap ≤ b - a)) && spacedBy gap (b :: rest)

/-- A command-execution collaborator that accepts every command. -/
def execAll : ControlCommandEntry → Bool := fun _ => true

/-- A command-execution collaborator that rejects every command. -/
def execNone : ControlCommandEntry → Bool := fun _ => false

/-- A client trace: connect call, transport-connected event at 50000 ms (which
sends the initial keep-alive), then one loop tick at 50001 ms. -/
def hbTrace : List (Nat × GWAct) :=
  [(49000, GWAct.connectCall ("lcg.example.org")),
    (50000, GWAct.ev WSEv.CONNECTED),
    (50001, GWAct.tick)]

/-- A client trace whose tick keep-alives occur at 40000 and 80000 ms, with an
intermediate gated tick at 50000 ms. -/
def hbWitTrace : List (Nat × GWAct) :=
  [(1000, GWAct.connectCall ("lcg.example.org")),
    (2000, GWAct.ev WSEv.CONNECTED),
    (40000, GWAct.tick),
    (50000, GWAct.tick),
    (80000, GWAct.tick)]

/-- An idle verified-capable state: IP present, a stored token, no client. -/
def verifyState : SysState :=
  { flags := FLAG_HAS_IP
    wsClient := none
    lastConnectionAttempt := 0
    backendAuthToken := some ("tokenA") }

/-- An LCG response that is never consulted on the paths under test. -/
def lcgNone : LCGResponse := { code := 0, fqdn := none, country := none }

/-- A successful LCG assignment response. -/
def lcgOk : LCGResponse :=
  { code := 200, fqdn := some ("lcg.example.org"), country := some ("EU") }

/-- A client whose websocket session is currently established. -/
def liveClient : GatewayClient :=
  { lastKeepAlive := 0
    state := GatewayClient.State.Connected
    wsConn := true
    endpoint := some ("lcg.example.org") }

/-- A state with IP and an established session but no stored credential. -/
def connectedUnauth : SysState :=
  { flags := FLAG_HAS_IP
    wsClient := some liveClient
    lastConnectionAttempt := 0
    backendAuthToken := none }

/-- An idle state with IP and a stored token, used for verification calls. -/
def selfState : SysState :=
  { flags := FLAG_HAS_IP
    wsClient := none
    lastConnectionAttempt := 0
    backendAuthToken := some ("tokenB") }

/-- An idle unpaired state with IP and no stored token. -/
def pairIdleState : SysState :=
  { flags := FLAG_HAS_IP
    wsClient := none
    lastConnectionAttempt := 0
    backendAuthToken := none }

/-- A fully populated state: IP, authenticated, live session, stored token. -/
def unpairFullState : SysState :=
  { flags := FLAG_HAS_IP ||| FLAG_AUTHENTICATED
    wsClient := some liveClient
    lastConnectionAttempt := 0
    backendAuthToken := some ("tokenC") }

/-- A system trace issuing assignLCG requests at 25000 and 50000 ms with a
gated attempt at 30000 ms in between. -/
def lcgWitTrace : List (Nat × SysAct) :=
  [(0, SysAct.gotIP),
    (25000, SysAct.update 200 lcgOk),
    (26000, SysAct.gwEv WSEv.DISCONNECTED),
    (30000, SysAct.update 200 lcgOk),
    (50000, SysAct.update 200 lcgOk)]

/-- An inbound document with the unknown discriminator 2 and non-trivial
payload fields. -/
def unknownDoc : InboundDoc :=
  { responseType := 2
    commandData := [{ id := 1, type := 1, intensity := 50, duration := 300, model := 0 }]
    boolData := true }

theorem u64sub_eq_sub (a b : Nat) (h1 : b ≤ a) (h2 : a < U64LIMIT) : u64sub a b = a - b := by
  have hb : b % U64LIMIT = b := Nat.mod_eq_of_lt (lt_of_le_of_lt h1 h2)
  have hrw : a + (U64LIMIT - b % U64LIMIT) = (a - b) + U64LIMIT := by
    rw [hb]
    have : b ≤ U64LIMIT := le_of_lt (lt_of_le_of_lt h1 h2)
    omega
  rw [u64sub, hrw, Nat.add_mod_right, Nat.mod_eq_of_lt]
  omega

theorem spacedBy_cons_of (gap t : Nat) (l : List Nat)
    (h1 : spacedBy gap l = true) (h2 : ∀ u ∈ l, t + gap ≤ u) :
    spacedBy gap (t :: l) = true := by
  cases l with
  | nil => rfl
  | cons u l2 =>
    have hu : t + gap ≤ u := h2 u (List.mem_cons_self u l2)
    simp only [spacedBy, Bool.and_eq_true, decide_eq_true_eq]
    exact ⟨by omega, h1⟩

/-- If every step either emits nothing and preserves a measured timestamp, or
moves the timestamp to the step time while the step time clears the gap,
then the emitted times of a monotone bounded trace are pairwise at least
`gap` apart. -/
theorem gatedRun_spaced {σ α : Type} (step : σ → Nat → α → σ × Bool) (gap : Nat)
    (meas : σ → Nat)
    (hstep : ∀ s t a, meas s ≤ t → t < U64LIMIT →
      ((step s t a).2 = false ∧ meas (step s t a).1 = meas s) ∨
      (meas s + gap ≤ t ∧ meas (step s t a).1 = t)) :
    ∀ (tr : List (Nat × α)) (s : σ),
      (tr.map Prod.fst).Pairwise (· ≤ ·) →
      (∀ t ∈ tr.map Prod.fst, t < U64LIMIT) →
      (∀ p ∈ tr, meas s ≤ p.1) →
      spacedBy gap (gatedRun step s tr).2 = true ∧
        ∀ u ∈ (gatedRun step s tr).2, meas s + gap ≤ u := by
  intro tr
  induction tr with
  | nil =>
    intro s _ _ _
    exact ⟨rfl, by intro u hu; simp [gatedRun] at hu⟩
  | cons p tr ih =>
    obtain ⟨t, a⟩ := p
    intro s hmono hbound hlast
    have hm : meas s ≤ t := hlast (t, a) (List.mem_cons_self _ _)
    have hb : t < U64LIMIT := hbound t (by simp)
    rw [List.map_cons, List.pairwise_cons] at hmono
    have htle : ∀ b ∈ tr.map Prod.fst, t ≤ b := hmono.1
    have hmonoTail : (tr.map Prod.fst).Pairwise (· ≤ ·) := hmono.2
    have hboundTail : ∀ u ∈ tr.map Prod.fst, u < U64LIMIT := by
      intro u hu; exact hbound u (by simp [hu])
    rcases hstep s t a hm hb with ⟨hr2, hrm⟩ | ⟨hgate, hrm⟩
    · have hlastTail : ∀ q ∈ tr, meas (step s t a).1 ≤ q.1 := by
        intro q hq; rw [hrm]; exact hlast q (List.mem_cons_of_mem _ hq)
      obtain ⟨hs, hall⟩ := ih (step s t a).1 hmonoTail hboundTail hlastTail
      constructor
      · simp only [gatedRun, hr2]
        simpa using hs
      · intro u hu
        simp only [gatedRun, hr2] at hu
        simp at hu
        have := hall u hu
        omega
    · have hlastTail : ∀ q ∈ tr, meas (step s t a).1 ≤ q.1 := by
        intro q hq
        rw [hrm]
        exact htle q.1 (List.mem_map_of_mem Prod.fst hq)
      obtain ⟨hs, hall⟩ := ih (step s t a).1 hmonoTail hboundTail hlastTail
      have hall2 : ∀ u ∈ (gatedRun step (step s t a).1 tr).2, t + gap ≤ u := by
        intro u hu
        have := hall u hu
        omega
      cases he : (step s t a).2 with
      | false =>
        constructor
        · simp only [gatedRun, he]
          simpa using hs
        · intro u hu
          simp only [gatedRun, he] at hu
          simp at hu
          have := hall2 u hu
          omega
      | true =>
        constructor
        · simp only [gatedRun, he]
          simp only [if_true, List.singleton_append]
          exact spacedBy_cons_of gap t _ hs hall2
        · intro u hu
          simp only [gatedRun, he] at hu
          simp at hu
          rcases hu with rfl | hu
          · exact hgate
          · have := hall2 u hu
            omega

theorem handleEvent_lastKA (exec : ControlCommandEntry → Bool) (c : GatewayClient)
    (e : WSEv) : (handleEvent exec c e).client.lastKeepAlive = c.lastKeepAlive := by
  cases e <;> rfl

theorem connect_lastKA (c : GatewayClient) (f : String) :
    (c.connect f).lastKeepAlive = c.lastKeepAlive := by
  unfold GatewayClient.connect
  split <;> rfl

theorem disconnect_lastKA (c : GatewayClient) :
    c.disconnect.lastKeepAlive = c.lastKeepAlive := by
  unfold GatewayClient.disconnect
  split <;> rfl

theorem gw_tick_hstep (exec : ControlCommandEntry → Bool) (c : GatewayClient) (t : Nat)
    (a : GWAct) (hm : c.lastKeepAlive ≤ t) (hb : t < U64LIMIT) :
    ((gwTickStep exec c t a).2 = false ∧
      (gwTickStep exec c t a).1.lastKeepAlive = c.lastKeepAlive) ∨
    (c.lastKeepAlive + 30000 ≤ t ∧ (gwTickStep exec c t a).1.lastKeepAlive = t) := by
  cases a with
  | ev e =>
    left
    refine ⟨?_, handleEvent_lastKA exec c e⟩
    cases hE : (handleEvent exec c e).hbSent <;> simp [gwTickStep, gwStep, hE]
  | tick =>
    by_cases h1 : c.state = GatewayClient.State.Disconnected
    · left
      constructor <;> simp [gwTickStep, gwStep, GatewayClient.loop, h1]
    · by_cases h2 : c.state = GatewayClient.State.Connected
      · by_cases h3 : 30000 ≤ u64sub t c.lastKeepAlive
        · right
          have h30 : c.lastKeepAlive + 30000 ≤ t := by
            rw [u64sub_eq_sub t c.lastKeepAlive hm hb] at h3
            omega
          refine ⟨h30, ?_⟩
          simp [gwTickStep, gwStep, GatewayClient.loop, h1, h2, h3]
        · left
          constructor <;> simp [gwTickStep, gwStep, GatewayClient.loop, h1, h2, h3]
      · left
        constructor <;> simp [gwTickStep, gwStep, GatewayClient.loop, h1, h2]
  | connectCall f =>
    left
    exact ⟨rfl, connect_lastKA c f⟩
  | disconnectCall =>
    left
    exact ⟨rfl, disconnect_lastKA c⟩

theorem gwRun_tick_eq (exec : ControlCommandEntry → Bool) :
    ∀ (tr : List (Nat × GWAct)) (c : GatewayClient),
      (gwRun exec c tr).1 = (gatedRun (gwTickStep exec) c tr).1 ∧
        tickHBtimes (gwRun exec c tr).2 = (gatedRun (gwTickStep exec) c tr).2 := by
  intro tr
  induction tr with
  | nil => intro c; exact ⟨rfl, rfl⟩
  | cons p tr ih =>
    obtain ⟨t, a⟩ := p
    intro c
    obtain ⟨ihs, ihl⟩ := ih (gwStep exec c t a).1
    have h1 : (gwTickStep exec c t a).1 = (gwStep exec c t a).1 := rfl
    constructor
    · simp only [gwRun, gatedRun, h1]
      exact ihs
    · simp only [tickHBtimes] at ihl ⊢
      simp only [gwRun, gatedRun, h1, List.filter_append, List.map_append]
      cases hE : (gwStep exec c t a).2 with
      | none =>
        have h2 : (gwTickStep exec c t a).2 = false := by simp [gwTickStep, hE]
        simp [h2, ihl]
      | some tag =>
        cases tag with
        | false =>
          have h2 : (gwTickStep exec c t a).2 = false := by simp [gwTickStep, hE]
          simp [h2, ihl]
        | true =>
          have h2 : (gwTickStep exec c t a).2 = true := by simp [gwTickStep, hE]
          simp [h2, ihl]

theorem Pair_lastCA (s : SysState) (resp : PairResponse) :
    (Pair s resp).1.lastConnectionAttempt = s.lastConnectionAttempt := by
  simp only [Pair, SetBackendAuthToken]
  repeat' split
  all_goals rfl

theorem FetchDeviceInfo_lastCA (s : SysState) (code : Int) :
    (FetchDeviceInfo s code).1.lastConnectionAttempt = s.lastConnectionAttempt := by
  simp only [FetchDeviceInfo, ClearBackendAuthToken]
  repeat' split
  all_goals rfl

theorem ConnectToLCG_lastCA (s : SysState) (t : Nat) (resp : LCGResponse)
    (hm : s.lastConnectionAttempt ≤ t) (hb : t < U64LIMIT) :
    ((ConnectToLCG s t resp).2.2 = false ∧
      (ConnectToLCG s t resp).1.lastConnectionAttempt = s.lastConnectionAttempt) ∨
    (s.lastConnectionAttempt + 20000 ≤ t ∧
      (ConnectToLCG s t resp).1.lastConnectionAttempt = t) := by
  cases hc : s.wsClient with
  | none => left; constructor <;> simp [ConnectToLCG, hc]
  | some c =>
    by_cases hst : c.state ≠ GatewayClient.State.Disconnected
    · left; constructor <;> simp [ConnectToLCG, hc, hst]
    · by_cases hg : u64sub t s.lastConnectionAttempt < 20000
      · left; constructor <;> simp [ConnectToLCG, hc, hst, hg]
      · right
        have h20 : s.lastConnectionAttempt + 20000 ≤ t := by
          rw [u64sub_eq_sub t s.lastConnectionAttempt hm hb] at hg
          omega
        refine ⟨h20, ?_⟩
        simp only [ConnectToLCG, hc]
        rw [if_neg hst, if_neg hg]
        split
        · rfl
        · split
          · rfl
          · split <;> rfl

theorem updateTail_lastCA (s : SysState) (t : Nat) (lcg : LCGResponse)
    (hm : s.lastConnectionAttempt ≤ t) (hb : t < U64LIMIT) :
    ((updateTail s t lcg).2 = false ∧
      (updateTail s t lcg).1.lastConnectionAttempt = s.lastConnectionAttempt) ∨
    (s.lastConnectionAttempt + 20000 ≤ t ∧
      (updateTail s t lcg).1.lastConnectionAttempt = t) := by
  cases hc : s.wsClient with
  | none => left; constructor <;> simp [updateTail, hc]
  | some c =>
    by_cases hby : (GatewayClient.loop c t).busy
    · left; constructor <;> simp [updateTail, hc, hby]
    · have h := ConnectToLCG_lastCA { s with wsClient := some (GatewayClient.loop c t).client }
        t lcg hm hb
      simp only [updateTail, hc]
      rw [if_neg hby]
      exact h

theorem Update_lastCA (s : SysState) (t : Nat) (vc : Int) (lcg : LCGResponse)
    (hm : s.lastConnectionAttempt ≤ t) (hb : t < U64LIMIT) :
    ((Update s t vc lcg).2 = false ∧
      (Update s t vc lcg).1.lastConnectionAttempt = s.lastConnectionAttempt) ∨
    (s.lastConnectionAttempt + 20000 ≤ t ∧
      (Update s t vc lcg).1.lastConnectionAttempt = t) := by
  cases hc : s.wsClient with
  | some c =>
    have h := updateTail_lastCA s t lcg hm hb
    simp only [Update, hc]
    exact h
  | none =>
    have hfd : (FetchDeviceInfo s vc).1.lastConnectionAttempt = s.lastConnectionAttempt :=
      FetchDeviceInfo_lastCA s vc
    by_cases hguard : s.flags &&& FLAG_HAS_IP = 0 ∨ HasBackendAuthToken s = false
    · left; constructor <;> simp [Update, hc, hguard]
    · by_cases hr : (FetchDeviceInfo s vc).2
      · have h := updateTail_lastCA
          { { (FetchDeviceInfo s vc).1 with
              flags := (FetchDeviceInfo s vc).1.flags ||| FLAG_AUTHENTICATED } with
            wsClient := some mkGatewayClient } t lcg (by simpa [hfd] using hm) hb
        simp only [Update, hc]
        rw [if_neg hguard, if_neg (by simp [hr])]
        simpa [hfd] using h
      · left
        simp only [Update, hc]
        rw [if_neg hguard, if_pos (by simp [hr])]
        exact ⟨rfl, hfd⟩

theorem sysStep_hstep (exec : ControlCommandEntry → Bool) (s : SysState) (t : Nat)
    (a : SysAct) (hm : s.lastConnectionAttempt ≤ t) (hb : t < U64LIMIT) :
    ((sysStep exec s t a).2 = false ∧
      (sysStep exec s t a).1.lastConnectionAttempt = s.lastConnectionAttempt) ∨
    (s.lastConnectionAttempt + 20000 ≤ t ∧
      (sysStep exec s t a).1.lastConnectionAttempt = t) := by
  cases a with
  | update vc lcg => exact Update_lastCA s t vc lcg hm hb
  | pairCall pc resp => exact Or.inl ⟨rfl, Pair_lastCA s resp⟩
  | unpairCall => exact Or.inl ⟨rfl, rfl⟩
  | gotIP => exact Or.inl ⟨rfl, rfl⟩
  | wifiLost => exact Or.inl ⟨rfl, rfl⟩
  | gwEv e =>
    left
    cases hc : s.wsClient with
    | none => constructor <;> simp [sysStep, hc]
    | some c => constructor <;> simp [sysStep, hc]

theorem lor_auth_and_auth (a : Nat) (h : a < 256) :
    (a ||| FLAG_AUTHENTICATED) &&& FLAG_AUTHENTICATED ≠ 0 := by
  have h2 : ∀ b : Fin 256, (b.val ||| 2) &&& 2 ≠ 0 := by decide
  exact h2 ⟨a, h⟩

theorem land_hasip_and_auth (a : Nat) (h : a < 256) :
    (a &&& FLAG_HAS_IP) &&& FLAG_AUTHENTICATED = 0 := by
  have h2 : ∀ b : Fin 256, (b.val &&& 1) &&& 2 = 0 := by decide
  exact h2 ⟨a, h⟩

theorem land_hasip_and_hasip (a : Nat) (h : a < 256) :
    (a &&& FLAG_HAS_IP) &&& FLAG_HAS_IP = a &&& FLAG_HAS_IP := by
  have h2 : ∀ b : Fin 256, (b.val &&& 1) &&& 1 = b.val &&& 1 := by decide
  exact h2 ⟨a, h⟩

/-- Claim C1, as stated, fails on the code: on the trace `hbTrace` (monotone,
bounded timestamps) the initial keep-alive sent by the CONNECTED event at
50000 ms is followed by a tick keep-alive at 50001 ms, only 1 ms later,
because `_handleEvent` does not reset `m_lastKeepAlive` (it stays 0). -/
theorem heartbeat_initial_spacing_cex :
    (hbTrace.map Prod.fst).Pairwise (· ≤ ·) ∧
    (∀ t ∈ hbTrace.map Prod.fst, t < U64LIMIT) ∧
    hbTimes (gwRun execAll mkGatewayClient hbTrace).2 = [50000, 50001] ∧
    spacedBy 30000 (hbTimes (gwRun execAll mkGatewayClient hbTrace).2) = false := by
  refine ⟨by decide, by decide, by decide, by decide⟩

/-- Claim C1 (amended): keep-alives sent by the periodic tick in
`GatewayClient::loop` are at least 30000 ms apart, and a tick of a Connected
client sends one exactly when 30000 ms have elapsed since `m_lastKeepAlive`
(and the transport is connected); the initial keep-alive sent on the
transport-connected event does not reset the timer and is exempt from the
spacing. -/
theorem heartbeat_tick_spacing (exec : ControlCommandEntry → Bool)
    (tr : List (Nat × GWAct))
    (hmono : (tr.map Prod.fst).Pairwise (· ≤ ·))
    (hbound : ∀ t ∈ tr.map Prod.fst, t < U64LIMIT) :
    spacedBy 30000 (tickHBtimes (gwRun exec mkGatewayClient tr).2) = true ∧
    ∀ (c : GatewayClient) (t : Nat), c.state = GatewayClient.State.Connected →
      c.lastKeepAlive ≤ t → t < U64LIMIT →
      ((GatewayClient.loop c t).hbSent = true ↔
        (30000 ≤ t - c.lastKeepAlive ∧ c.wsConn = true)) := by
  constructor
  · rw [(gwRun_tick_eq exec tr mkGatewayClient).2]
    exact (gatedRun_spaced (gwTickStep exec) 30000 (fun c => c.lastKeepAlive)
      (fun s t a hm hb => gw_tick_hstep exec s t a hm hb) tr mkGatewayClient hmono hbound
      (fun _ _ => Nat.zero_le _)).1
  · intro c t hc hm hb
    by_cases h3 : 30000 ≤ u64sub t c.lastKeepAlive
    · have h4 : 30000 ≤ t - c.lastKeepAlive := by
        rw [u64sub_eq_sub t c.lastKeepAlive hm hb] at h3
        exact h3
      simp [GatewayClient.loop, hc, h3, h4, sendKeepAlive]
    · have h4 : ¬30000 ≤ t - c.lastKeepAlive := by
        rw [u64sub_eq_sub t c.lastKeepAlive hm hb] at h3
        exact h3
      simp [GatewayClient.loop, hc, h3, h4]

/-- Witness for the amended claim C1 on a concrete trace with tick
keep-alives at 40000 and 80000 ms. -/
theorem heartbeat_tick_spacing_witness :
    spacedBy 30000 (tickHBtimes (gwRun execAll mkGatewayClient hbWitTrace).2) = true :=
  (heartbeat_tick_spacing execAll hbWitTrace (by decide) (by decide)).1

/-- Claim C2: the code diverges from the claim. On an Update tick that
verifies the stored credential and observes a transient HTTP 500,
`FetchDeviceInfo` itself leaves the credential untouched (the claimed
behaviour), but `Update` then clears the persisted credential anyway. -/
theorem update_transient_verify_failure_clears_token :
    FetchDeviceInfo verifyState 500 = (verifyState, false) ∧
    (Update verifyState 1000 500 lcgNone).1.backendAuthToken = none ∧
    verifyState.backendAuthToken = some ("tokenA") := by
  refine ⟨by decide, by decide, rfl⟩

/-- Claim C3, as stated, fails on the code: a failed `Pair` call (HTTP 500)
does not leave an existing Session as it was — `Pair` destroys the client
before issuing the HTTP request, so `IsConnected` flips from true to
false. -/
theorem pair_failure_destroys_session_cex :
    IsConnected connectedUnauth = true ∧
    (Pair connectedUnauth { code := 500, body := "" }).2 = false ∧
    (Pair connectedUnauth { code := 500, body := "" }).1.backendAuthToken =
      connectedUnauth.backendAuthToken ∧
    (Pair connectedUnauth { code := 500, body := "" }).1.wsClient = none ∧
    IsConnected (Pair connectedUnauth { code := 500, body := "" }).1 = false := by
  refine ⟨by decide, by decide, by decide, by decide, by decide⟩

/-- Claim C3 (amended): a `Pair` call whose HTTP response is non-200 or whose
returned credential is empty returns false, leaves the credential store and
the flags (hence `IsPaired`) unchanged, but unconditionally destroys any
existing Session before the request is issued. -/
theorem pair_failure_effects (s : SysState) (resp : PairResponse)
    (hip : s.flags &&& FLAG_HAS_IP ≠ 0)
    (hfail : resp.code ≠ 200 ∨ resp.body = "") :
    (Pair s resp).2 = false ∧
    (Pair s resp).1.backendAuthToken = s.backendAuthToken ∧
    (Pair s resp).1.flags = s.flags ∧
    IsPaired (Pair s resp).1 = IsPaired s ∧
    (Pair s resp).1.wsClient = none := by
  by_cases hcode : resp.code = 200
  · have hbody : resp.body = "" := by
      rcases hfail with h | h
      · exact absurd hcode h
      · exact h
    simp [Pair, hip, hcode, hbody, IsPaired]
  · simp [Pair, hip, hcode, IsPaired]

/-- Witness for the amended claim C3 at a concrete failed pairing. -/
theorem pair_failure_effects_witness :
    (Pair connectedUnauth { code := 404, body := ("x") }).2 = false ∧
    (Pair connectedUnauth { code := 404, body := ("x") }).1.backendAuthToken =
      connectedUnauth.backendAuthToken ∧
    (Pair connectedUnauth { code := 404, body := ("x") }).1.flags = connectedUnauth.flags ∧
    IsPaired (Pair connectedUnauth { code := 404, body := ("x") }).1 =
      IsPaired connectedUnauth ∧
    (Pair connectedUnauth { code := 404, body := ("x") }).1.wsClient = none :=
  pair_failure_effects connectedUnauth { code := 404, body := ("x") } (by decide)
    (Or.inl (by decide))

/-- Claim C4: immediately after a network-loss event, from any prior state,
`IsConnected` is false, no Session exists, and both connection flags are
cleared. -/
theorem network_loss_resets_state (s : SysState) :
    (evWiFiDisconnectedHandler s).flags = FLAG_NONE ∧
    (evWiFiDisconnectedHandler s).wsClient = none ∧
    IsConnected (evWiFiDisconnectedHandler s) = false ∧
    (evWiFiDisconnectedHandler s).flags &&& FLAG_HAS_IP = 0 ∧
    (evWiFiDisconnectedHandler s).flags &&& FLAG_AUTHENTICATED = 0 :=
  ⟨rfl, rfl, rfl,
    by simp [evWiFiDisconnectedHandler, FLAG_NONE, FLAG_HAS_IP],
    by simp [evWiFiDisconnectedHandler, FLAG_NONE, FLAG_AUTHENTICATED]⟩

/-- Claim C5: credential verification with IP present: 401 clears the stored
credential and fails; any other non-200 fails with the whole state
untouched; 200 succeeds, leaves the credential, and sets the Authenticated
flag (so `IsPaired` holds). -/
theorem fetch_device_info_cases (s : SysState) (code : Int)
    (hip : s.flags &&& FLAG_HAS_IP ≠ 0) (hflags : s.flags < 256) :
    (code = 401 → FetchDeviceInfo s code = ({ s with backendAuthToken := none }, false)) ∧
    (code ≠ 401 → code ≠ 200 → FetchDeviceInfo s code = (s, false)) ∧
    (code = 200 →
      FetchDeviceInfo s code = ({ s with flags := s.flags ||| FLAG_AUTHENTICATED }, true) ∧
      IsPaired (FetchDeviceInfo s code).1 = true) := by
  refine ⟨?_, ?_, ?_⟩
  · intro h
    simp [FetchDeviceInfo, ClearBackendAuthToken, hip, h]
  · intro h1 h2
    simp [FetchDeviceInfo, hip, h1, h2]
  · intro h
    have h401 : code ≠ 401 := by rw [h]; decide
    refine ⟨by simp [FetchDeviceInfo, hip, h, h401], ?_⟩
    have hbit := lor_auth_and_auth s.flags hflags
    simp [FetchDeviceInfo, hip, h, h401, IsPaired, hbit]

/-- Witness for claim C5 at concrete 401, 500 and 200 responses. -/
theorem fetch_device_info_cases_witness :
    FetchDeviceInfo selfState 401 = ({ selfState with backendAuthToken := none }, false) ∧
    FetchDeviceInfo selfState 500 = (selfState, false) ∧
    FetchDeviceInfo selfState 200 =
      ({ selfState with flags := selfState.flags ||| FLAG_AUTHENTICATED }, true) :=
  ⟨(fetch_device_info_cases selfState 401 (by decide) (by decide)).1 rfl,
    (fetch_device_info_cases selfState 500 (by decide) (by decide)).2.1 (by decide) (by decide),
    ((fetch_device_info_cases selfState 200 (by decide) (by decide)).2.2 rfl).1⟩

/-- Claim C6: over any serialized execution history with monotone bounded
timestamps, two issued HTTP requests to the gateway-assignment endpoint are
always at least 20000 ms apart. -/
theorem lcg_request_cooldown (exec : ControlCommandEntry → Bool) (tok : Option String)
    (tr : List (Nat × SysAct))
    (hmono : (tr.map Prod.fst).Pairwise (· ≤ ·))
    (hbound : ∀ t ∈ tr.map Prod.fst, t < U64LIMIT) :
    spacedBy 20000 (sysRun exec (initialSys tok) tr).2 = true :=
  (gatedRun_spaced (sysStep exec) 20000 (fun s => s.lastConnectionAttempt)
    (fun s t a hm hb => sysStep_hstep exec s t a hm hb) tr (initialSys tok) hmono hbound
    (fun _ _ => Nat.zero_le _)).1

/-- Witness for claim C6 on a concrete history issuing requests at 25000 and
50000 ms with a gated attempt at 30000 ms. -/
theorem lcg_request_cooldown_witness :
    (sysRun execAll (initialSys (some ("tokenD"))) lcgWitTrace).2 = [25000, 50000] ∧
    spacedBy 20000 (sysRun execAll (initialSys (some ("tokenD"))) lcgWitTrace).2 = true :=
  ⟨by decide,
    lcg_request_cooldown execAll (some ("tokenD")) lcgWitTrace (by decide) (by decide)⟩

/-- Claim C7: a `Pair` call with IP present, HTTP 200 and a non-empty
credential returns true, stores the new credential, and makes `IsPaired`
true. -/
theorem pair_success_effects (s : SysState) (resp : PairResponse)
    (hip : s.flags &&& FLAG_HAS_IP ≠ 0) (hflags : s.flags < 256)
    (hcode : resp.code = 200) (hbody : resp.body ≠ "") :
    (Pair s resp).2 = true ∧
    (Pair s resp).1.backendAuthToken = some resp.body ∧
    IsPaired (Pair s resp).1 = true := by
  have hbit := lor_auth_and_auth s.flags hflags
  refine ⟨?_, ?_, ?_⟩ <;>
    simp [Pair, SetBackendAuthToken, hip, hcode, hbody, IsPaired, hbit]

/-- Witness for claim C7 at a concrete successful pairing. -/
theorem pair_success_effects_witness :
    (Pair pairIdleState { code := 200, body := ("tokenNew") }).2 = true ∧
    (Pair pairIdleState { code := 200, body := ("tokenNew") }).1.backendAuthToken =
      some ("tokenNew") ∧
    IsPaired (Pair pairIdleState { code := 200, body := ("tokenNew") }).1 = true :=
  pair_success_effects pairIdleState { code := 200, body := ("tokenNew") } (by decide)
    (by decide) rfl (by decide)

/-- Claim C8: a control-command envelope forwards every entry of its `Data`
list to the command-execution collaborator, in list order, regardless of
which executions the collaborator rejects — no short-circuit. -/
theorem control_batch_forwards_all (exec : ControlCommandEntry → Bool)
    (entries : List ControlCommandEntry) (b : Bool) :
    parseMessage exec { responseType := 0, commandData := entries, boolData := b } =
      entries.map (fun e => DispatchCall.execute e (exec e)) := by
  simp only [parseMessage]
  norm_num
  induction entries with
  | nil => rfl
  | cons e rest ih =>
    simp only [handleControlCommandMessage, List.map_cons, ih]

/-- Claim C9: an envelope whose discriminator is neither 0 nor 1 produces no
dispatcher call at all and leaves the client (hence the open session)
unchanged. -/
theorem unknown_response_type_ignored (exec : ControlCommandEntry → Bool)
    (c : GatewayClient) (doc : InboundDoc)
    (h0 : doc.responseType ≠ 0) (h1 : doc.responseType ≠ 1) :
    handleEvent exec c (WSEv.TEXT doc) =
      { client := c, notify := none, hbSent := false, calls := [] } := by
  simp [handleEvent, parseMessage, h0, h1]

/-- Witness for claim C9 at a concrete envelope with discriminator 2. -/
theorem unknown_response_type_ignored_witness :
    handleEvent execAll liveClient (WSEv.TEXT unknownDoc) =
      { client := liveClient, notify := none, hbSent := false, calls := [] } :=
  unknown_response_type_ignored execAll liveClient unknownDoc (by decide) (by decide)

/-- Claim C10: `UnPair` unconditionally destroys the Session (`IsConnected`
false immediately), clears the Authenticated flag and the stored credential,
and preserves the HasNetwork flag. -/
theorem unpair_effects (s : SysState) (hflags : s.flags < 256) :
    (UnPair s).wsClient = none ∧
    IsConnected (UnPair s) = false ∧
    (UnPair s).flags &&& FLAG_AUTHENTICATED = 0 ∧
    (UnPair s).flags &&& FLAG_HAS_IP = s.flags &&& FLAG_HAS_IP ∧
    (UnPair s).backendAuthToken = none :=
  ⟨rfl, rfl, land_hasip_and_auth s.flags hflags, land_hasip_and_hasip s.flags hflags, rfl⟩

/-- Witness for claim C10 at a concrete fully populated state. -/
theorem unpair_effects_witness :
    (UnPair unpairFullState).wsClient = none ∧
    IsConnected (UnPair unpairFullState) = false ∧
    (UnPair unpairFullState).flags &&& FLAG_AUTHENTICATED = 0 ∧
    (UnPair unpairFullState).flags &&& FLAG_HAS_IP =
      unpairFullState.flags &&& FLAG_HAS_IP ∧
    (UnPair unpairFullState).backendAuthToken = none :=
  unpair_effects unpairFullState (by decide)

end OpenShock
